import Mathlib

/-!
Shallow embedding of the WIKA maintenance-ticket application core:
the ticket lifecycle routes (submit, assign, start, complete), the
role guard middleware, the JWT token-source selection, and the push
notification dispatcher.  The persistence layer is modelled, per the
specification's external-interface section, as an opaque executor over
a list of ticket rows: an UPDATE applies its WHERE clause to every row
and reports the number of rows it matched, a SELECT returns the
matching rows.  SQL NULL comparison semantics are kept: a comparison
against a NULL parameter matches nothing.
-/

namespace WikaMaint

/-- JavaScript falsiness restricted to the optional strings the routes
test with `!x`: absent (undefined/null) and the empty string are falsy. -/
def falsy : Option String → Bool
  | none => true
  | some s => s == ""

/-- JavaScript `a || b` on optional strings: yields `b` when `a` is falsy. -/
def jsOr (a b : Option String) : Option String :=
  if falsy a then b else a

/-- JavaScript `a || null`: coerces a falsy value to null (absent). -/
def orNull (a : Option String) : Option String :=
  if falsy a then none else a

/-- SQL equality between a column value and a bound parameter: NULL on
either side never matches. -/
def sqlEq (a b : Option String) : Bool :=
  match a, b with
  | some x, some y => x == y
  | _, _ => false

/-- Decoded JWT payload as signed at login: the login route copies the
users row's department column into both the department and role claim
fields, but each field may independently be absent in a general token. -/
structure IdentityClaim where
  globalId : Option String
  name : Option String
  role : Option String
  department : Option String
  location : Option String
deriving Repr, DecidableEq

/-- One row of the tickets table.  Timestamps are abstract ticks (the
GETDATE() value in effect when the statement runs). -/
structure Ticket where
  id : Nat
  globalId : Option String
  raisedBy : Option String
  category : Option String
  description : Option String
  buildingNo : Option String
  areaCode : Option String
  subArea : Option String
  keyword : Option String
  location : Option String
  status : String
  assignedTo : Option String
  plannerId : Option String
  completionNote : Option String
  createdAt : Nat
  updatedAt : Nat
  startedAt : Option Nat
  completedAt : Option Nat
deriving Repr, DecidableEq

/-- The tickets table. -/
abbrev TicketDB := List Ticket

/-- Outcome of running an UPDATE: the new table and the affected-row
count reported by the driver. -/
def updateWhere (db : TicketDB) (p : Ticket → Bool) (f : Ticket → Ticket) :
    TicketDB × Nat :=
  (db.map fun t => if p t then f t else t, (db.filter p).length)

/-- Outcome of the requireRole middleware. -/
inductive GuardResult where
  | unauthorized
  | forbidden
  | next
deriving Repr, DecidableEq

/-- middleware/requireRole.js: 401 when no decoded user is attached,
role taken as `req.user.role || req.user.department`, 403 when that
value is not in the allowed list. -/
def requireRole (allowedRoles : List String) (user : Option IdentityClaim) :
    GuardResult :=
  match user with
  | none => .unauthorized
  | some u =>
    match jsOr u.role u.department with
    | some r => if allowedRoles.contains r then .next else .forbidden
    | none => .forbidden

/-- Response category produced by a route handler. -/
inductive Response where
  | unauthorized
  | forbidden
  | badRequest
  | notFound
  | validationError
  | ok
deriving Repr, DecidableEq

/-- Request body of POST /ticket/submit. -/
structure SubmitBody where
  category : Option String
  description : Option String
  building_no : Option String
  area_code : Option String
  sub_area : Option String
  keyword : Option String
deriving Repr, DecidableEq

/-- Category normalization in POST /ticket/submit: the literals
Facility and Facility Service map to Facility Service, a falsy category
becomes Other, and every other value is kept as written. -/
def normalizeCategory (c : Option String) : Option String :=
  if c == some "Facility" || c == some "Facility Service" then
    some "Facility Service"
  else if falsy c then some "Other"
  else c

/-- Row built by the INSERT of POST /ticket/submit: status Open, the
normalized category, the raiser's globalId and location, body fields
coerced to null when falsy. -/
def insertedTicket (user : IdentityClaim) (body : SubmitBody)
    (now newId : Nat) : Ticket :=
  { id := newId
    globalId := user.globalId
    raisedBy := orNull user.name
    category := normalizeCategory body.category
    description := orNull body.description
    buildingNo := orNull body.building_no
    areaCode := orNull body.area_code
    subArea := orNull body.sub_area
    keyword := orNull body.keyword
    location := orNull user.location
    status := "Open"
    assignedTo := none
    plannerId := none
    completionNote := none
    createdAt := now
    updatedAt := now
    startedAt := none
    completedAt := none }

/-- POST /ticket/submit (routes/ticket.js): role guard, 401 without a
globalId claim, category normalization, the Facility Service
required-field check, then the INSERT with status Open and the raiser's
location. -/
def submitTicket (user : IdentityClaim) (body : SubmitBody)
    (now newId : Nat) (db : TicketDB) : Response × TicketDB :=
  match requireRole ["normal_user", "technician", "planner", "admin"] (some user) with
  | .unauthorized => (.unauthorized, db)
  | .forbidden => (.forbidden, db)
  | .next =>
    if falsy user.globalId then (.unauthorized, db)
    else
      if normalizeCategory body.category == some "Facility Service" &&
          (falsy body.building_no || falsy body.area_code ||
           falsy body.sub_area || falsy body.keyword) then
        (.validationError, db)
      else
        (.ok, db ++ [insertedTicket user body now newId])

/-- WHERE clause matching on the ticket id alone. -/
def idPred (tid : Nat) (t : Ticket) : Bool :=
  t.id == tid

/-- The headquarters override of routes/planner.js: the caller's role
claim is admin and their location is Pune. -/
def hqOverride (u : IdentityClaim) : Bool :=
  u.role == some "admin" && u.location == some "Pune"

/-- WHERE clause of POST /planner/assign: the id must match, and the
location must equal the caller's location unless the headquarters
override applies. -/
def plannerScopePred (u : IdentityClaim) (tid : Nat) (t : Ticket) : Bool :=
  t.id == tid && (hqOverride u || sqlEq t.location u.location)

/-- WHERE clause of the technician routes: the id must match, and the
location must equal the caller's location unless the caller's role
claim is exactly admin. -/
def techScopePred (u : IdentityClaim) (tid : Nat) (t : Ticket) : Bool :=
  t.id == tid && (u.role == some "admin" || sqlEq t.location u.location)

/-- SET clause of the assign UPDATE: assignedTo, plannerId, status
Assigned, updatedAt. -/
def assignUpdate (executerId plannerId : Option String) (now : Nat)
    (t : Ticket) : Ticket :=
  { t with assignedTo := executerId, plannerId := plannerId,
           status := "Assigned", updatedAt := now }

/-- SET clause of the start UPDATE: status In Progress, startedAt,
updatedAt. -/
def startUpdate (now : Nat) (t : Ticket) : Ticket :=
  { t with status := "In Progress", startedAt := some now,
           updatedAt := now }

/-- SET clause of the technician complete UPDATE: status Completed,
completion note, updatedAt, completedAt. -/
def techCompleteUpdate (note : Option String) (now : Nat)
    (t : Ticket) : Ticket :=
  { t with status := "Completed", completionNote := orNull note,
           updatedAt := now, completedAt := some now }

/-- SET clause of the complete UPDATE in routes/ticket.js: status
Completed and updatedAt only. -/
def ticketCompleteUpdate (now : Nat) (t : Ticket) : Ticket :=
  { t with status := "Completed", updatedAt := now }

/-- Truth value of the zero-rows test of both assign routes.  db.js
query resolves to the plain two-element array [recordset, result];
routes/ticket.js and routes/planner.js bind that array itself to
result, and a plain array has no rowsAffected property, so
`result.rowsAffected && result.rowsAffected[0] === 0` is always falsy
and the 404 branch of both assign routes is dead. -/
def assignZeroRowsTest : Bool := false

/-- Truth value of the zero-rows test of the technician routes.
`const [result] = await db.query(...)` binds the recordset, which is
undefined for an UPDATE; getAffectedCount of undefined is undefined,
so `typeof affected === 'number' && affected === 0` is always false
and the 404 branch of start and complete is dead. -/
def techZeroRowsTest : Bool := false

/-- Truth value of the missing-row test of POST /ticket/complete.
ticketRows is `result.recordset || result` where result is the
two-element array [recordset, result]; a plain array has no recordset
property, so ticketRows is that array, its length is 2, and the test
`!ticketRows || ticketRows.length === 0` is always false: the 404
branch is dead and ticketOwner is always undefined. -/
def completeMissingRowTest : Bool := false

/-- POST /ticket/assign (routes/ticket.js): planner or admin role, 400
on a missing id, then an UPDATE whose WHERE clause matches on the
ticket id only.  The route's 404-on-zero-rows branch is dead (see
assignZeroRowsTest), so the route responds success even when no row
matched. -/
def ticketAssign (user : IdentityClaim) (ticketId : Option Nat)
    (executerId : Option String) (now : Nat) (db : TicketDB) :
    Response × TicketDB :=
  match requireRole ["planner", "admin"] (some user) with
  | .unauthorized => (.unauthorized, db)
  | .forbidden => (.forbidden, db)
  | .next =>
    match ticketId with
    | none => (.badRequest, db)
    | some tid =>
      if falsy executerId then (.badRequest, db)
      else
        let r := updateWhere db (idPred tid)
          (assignUpdate executerId user.globalId now)
        if assignZeroRowsTest then (.notFound, r.1) else (.ok, r.1)

/-- POST /planner/assign (routes/planner.js): like ticketAssign but the
WHERE clause also requires the ticket's location to equal the caller's
location, unless the caller's role claim is admin and their location is
Pune (the headquarters override).  Its 404-on-zero-rows branch is dead
too (see assignZeroRowsTest), so an out-of-scope assign updates nothing
yet still responds success. -/
def plannerAssign (user : IdentityClaim) (ticketId : Option Nat)
    (executerId : Option String) (now : Nat) (db : TicketDB) :
    Response × TicketDB :=
  match requireRole ["planner", "admin"] (some user) with
  | .unauthorized => (.unauthorized, db)
  | .forbidden => (.forbidden, db)
  | .next =>
    match ticketId with
    | none => (.badRequest, db)
    | some tid =>
      if falsy executerId then (.badRequest, db)
      else
        let r := updateWhere db (plannerScopePred user tid)
          (assignUpdate executerId user.globalId now)
        if assignZeroRowsTest then (.notFound, r.1) else (.ok, r.1)

/-- POST /technician/start (routes/technician.js): technician, planner
or admin role; the UPDATE sets status to In Progress and startedAt,
matching on id, with a location filter added only when the caller's
role claim is not exactly admin.  The 404-on-zero-rows branch is dead
(see techZeroRowsTest), so the route responds success even when no row
matched. -/
def technicianStart (user : IdentityClaim) (ticketId : Option Nat)
    (now : Nat) (db : TicketDB) : Response × TicketDB :=
  match requireRole ["technician", "planner", "admin"] (some user) with
  | .unauthorized => (.unauthorized, db)
  | .forbidden => (.forbidden, db)
  | .next =>
    match ticketId with
    | none => (.badRequest, db)
    | some tid =>
      let r := updateWhere db (techScopePred user tid) (startUpdate now)
      if techZeroRowsTest then (.notFound, r.1) else (.ok, r.1)

/-- POST /technician/complete (routes/technician.js): same guard,
scoping and dead 404 branch as technicianStart; sets status Completed,
the completion note and completedAt. -/
def technicianComplete (user : IdentityClaim) (ticketId : Option Nat)
    (note : Option String) (now : Nat) (db : TicketDB) :
    Response × TicketDB :=
  match requireRole ["technician", "planner", "admin"] (some user) with
  | .unauthorized => (.unauthorized, db)
  | .forbidden => (.forbidden, db)
  | .next =>
    match ticketId with
    | none => (.badRequest, db)
    | some tid =>
      let r := updateWhere db (techScopePred user tid)
        (techCompleteUpdate note now)
      if techZeroRowsTest then (.notFound, r.1) else (.ok, r.1)

/-- POST /ticket/complete (routes/ticket.js): technician, planner or
admin role; a SELECT on the id feeds a missing-row test that is dead
(see completeMissingRowTest) and a notification target that is always
undefined, then an UPDATE sets status Completed and updatedAt only —
it touches neither completedAt nor the completion note, and applies no
location filter. -/
def ticketComplete (user : IdentityClaim) (ticketId : Option Nat)
    (now : Nat) (db : TicketDB) : Response × TicketDB :=
  match requireRole ["technician", "planner", "admin"] (some user) with
  | .unauthorized => (.unauthorized, db)
  | .forbidden => (.forbidden, db)
  | .next =>
    match ticketId with
    | none => (.badRequest, db)
    | some tid =>
      if completeMissingRowTest then (.notFound, db)
      else
        let r := updateWhere db (idPred tid) (ticketCompleteUpdate now)
        (.ok, r.1)

/-- The Bearer marker that an Authorization header value must open
with, as a character list. -/
def bearerMarker : List Char := ['B', 'e', 'a', 'r', 'e', 'r', ' ']

/-- Token extracted from an Authorization header value: when the value
starts with the Bearer marker, the second space-separated piece of the
split, otherwise nothing.  String operations are carried out on the
character list so they stay computable in proofs. -/
def bearerToken (authHeader : Option String) : Option String :=
  match authHeader with
  | none => none
  | some h =>
    if h.toList.take 7 = bearerMarker then
      ((h.toList.splitOn ' ').get? 1).map (fun cs => String.mk cs)
    else none

/-- middleware/authenticateJWT.js: the Authorization header is read
first; the cookie token is consulted only when the header yielded a
falsy token and the cookie itself is truthy. -/
def selectTokenHeaderFirst (authHeader cookieToken : Option String) :
    Option String :=
  let token := bearerToken authHeader
  if falsy token && !falsy cookieToken then cookieToken else token

/-- Local authenticateJWT in routes/technician.js and in app.js: the
cookie token is read first; the Authorization header is consulted only
when the cookie is falsy and a header is present. -/
def selectTokenCookieFirst (authHeader cookieToken : Option String) :
    Option String :=
  if falsy cookieToken && !falsy authHeader then
    match bearerToken authHeader with
    | some t => some t
    | none => cookieToken
  else cookieToken

/-- One web-push subscription as stored in the per-user registry. -/
structure PushSubscription where
  endpoint : String
  keys : String
deriving Repr, DecidableEq

/-- The try/catch body around one webPush.sendNotification call: a
failed delivery is caught and turned into a logged warning. -/
def attemptDelivery (deliver : PushSubscription → Except String Unit)
    (s : PushSubscription) : Except String (Option String) :=
  tryCatch (do let _ ← deliver s; pure none) (fun e => pure (some e))

/-- The for-of loop of sendNotificationToUser: every subscription is
attempted in order, pairing each with the warning its failure produced,
if any. -/
def notifyLoop (deliver : PushSubscription → Except String Unit) :
    List PushSubscription →
    Except String (List (PushSubscription × Option String))
  | [] => pure []
  | s :: rest => do
    let r ← attemptDelivery deliver s
    let tail ← notifyLoop deliver rest
    pure ((s, r) :: tail)

/-- sendNotificationToUser (routes/ticket.js): looks the target up in
the subscription registry, defaulting to the empty list, and runs the
delivery loop. -/
def sendNotificationToUser
    (deliver : PushSubscription → Except String Unit)
    (registry : String → Option (List PushSubscription))
    (target : String) :
    Except String (List (PushSubscription × Option String)) :=
  notifyLoop deliver ((registry target).getD [])

/-- Sample planner stationed at Mumbai. -/
def samplePlannerMumbai : IdentityClaim :=
  { globalId := some "P1", name := some "Pat", role := some "planner",
    department := some "planner", location := some "Mumbai" }

/-- Sample admin stationed at Mumbai, which is not the headquarters
location. -/
def sampleAdminMumbai : IdentityClaim :=
  { globalId := some "A1", name := some "Alex", role := some "admin",
    department := some "admin", location := some "Mumbai" }

/-- Sample technician stationed at Pune. -/
def sampleTechPune : IdentityClaim :=
  { globalId := some "T1", name := some "Tina", role := some "technician",
    department := some "technician", location := some "Pune" }

/-- Sample normal user stationed at Pune. -/
def sampleUserPune : IdentityClaim :=
  { globalId := some "U1", name := some "Uma", role := some "normal_user",
    department := some "normal_user", location := some "Pune" }

/-- Sample Open ticket located at Pune. -/
def sampleTicketOpenPune : Ticket :=
  { id := 1, globalId := some "U1", raisedBy := some "Uma",
    category := some "Other", description := none, buildingNo := none,
    areaCode := none, subArea := none, keyword := none,
    location := some "Pune", status := "Open", assignedTo := none,
    plannerId := none, completionNote := none, createdAt := 0,
    updatedAt := 0, startedAt := none, completedAt := none }

/-- Sample ticket at Pune already in progress. -/
def sampleTicketInProgressPune : Ticket :=
  { sampleTicketOpenPune with status := "In Progress",
                              startedAt := some 3 }

/-- Sample ticket at Pune already completed. -/
def sampleTicketCompletedPune : Ticket :=
  { sampleTicketOpenPune with status := "Completed",
                              startedAt := some 3, completedAt := some 4 }

/-- Sample submit body with the Facility category alias and all
Facility Service fields present. -/
def sampleFacilityBody : SubmitBody :=
  { category := some "Facility", description := some "leak",
    building_no := some "B1", area_code := some "A1",
    sub_area := some "S1", keyword := some "water" }

/-- Sample submit body with the Facility category alias and an absent
keyword. -/
def sampleFacilityBodyMissing : SubmitBody :=
  { category := some "Facility", description := some "leak",
    building_no := some "B1", area_code := some "A1",
    sub_area := some "S1", keyword := none }


/-- Sample planner stationed at Pune. -/
def samplePlannerPune : IdentityClaim :=
  { globalId := some "P2", name := some "Ping", role := some "planner",
    department := some "planner", location := some "Pune" }

/-- Sample Open ticket located at Delhi. -/
def sampleTicketOpenDelhi : Ticket :=
  { sampleTicketOpenPune with id := 2, location := some "Delhi" }

/-- Sample submit body with no category and no facility fields. -/
def sampleBodyOther : SubmitBody :=
  { category := none, description := some "fan broken",
    building_no := none, area_code := none, sub_area := none,
    keyword := none }

/-- Table after the sample user at Pune creates a ticket. -/
def reachableDb1 : TicketDB :=
  (submitTicket sampleUserPune sampleBodyOther 1 1 []).2

/-- Table after the Pune planner assigns that ticket. -/
def reachableDb2 : TicketDB :=
  (plannerAssign samplePlannerPune (some 1) (some "T1") 2 reachableDb1).2

/-- Table after the Pune technician starts that ticket. -/
def reachableDb3 : TicketDB :=
  (technicianStart sampleTechPune (some 1) 3 reachableDb2).2

/-- Table after the Pune technician completes that ticket through the
/ticket/complete route. -/
def reachableDb4 : TicketDB :=
  (ticketComplete sampleTechPune (some 1) 4 reachableDb3).2

/-- Sample delivery function that fails on endpoint e1 and succeeds
elsewhere. -/
def sampleDeliverFailFirst (s : PushSubscription) : Except String Unit :=
  if s.endpoint == "e1" then .error "boom" else .ok ()

/-- Sample registry with two endpoints for user U1. -/
def sampleRegistry (owner : String) : Option (List PushSubscription) :=
  if owner == "U1" then
    some [{ endpoint := "e1", keys := "k1" }, { endpoint := "e2", keys := "k2" }]
  else none

/-- Sample registry with no registrations at all. -/
def sampleEmptyRegistry (_owner : String) : Option (List PushSubscription) :=
  none

/-- Sample normal user whose claim location is the empty string. -/
def sampleUserEmptyLoc : IdentityClaim :=
  { globalId := some "U2", name := some "Eve", role := some "normal_user",
    department := some "normal_user", location := some "" }

/-- The single row of reachableDb3, written as the explicit composition
of the insert, assign and start updates. -/
def sampleReachableTicket : Ticket :=
  startUpdate 3 (assignUpdate (some "T1") samplePlannerPune.globalId 2
    (insertedTicket sampleUserPune sampleBodyOther 1 1))

/-!
Helper lemmas about the store update and the guards, shared by the
claim theorems below.
-/

theorem updateWhere_nomatch (db : TicketDB) (p : Ticket → Bool)
    (f : Ticket → Ticket) (h : ∀ t ∈ db, p t = false) :
    updateWhere db p f = (db, 0) := by
  unfold updateWhere
  refine Prod.ext ?_ ?_
  · simp only
    induction db with
    | nil => rfl
    | cons a l ih =>
      simp only [List.map_cons]
      rw [h a (List.mem_cons_self a l),
        ih fun t ht => h t (List.mem_cons_of_mem a ht)]
      simp
  · simp only
    rw [List.filter_eq_nil_iff.mpr fun t ht => by simp [h t ht]]
    rfl

theorem updateWhere_count_pos (db : TicketDB) (p : Ticket → Bool)
    (f : Ticket → Ticket) (t : Ticket) (ht : t ∈ db) (hp : p t = true) :
    (updateWhere db p f).2 ≠ 0 := by
  unfold updateWhere
  simp only
  intro hlen
  have : t ∈ db.filter p := List.mem_filter.mpr ⟨ht, hp⟩
  rw [List.length_eq_zero.mp hlen] at this
  exact absurd this (List.not_mem_nil t)

theorem updateWhere_map_field {α : Type} (g : Ticket → α) (db : TicketDB)
    (p : Ticket → Bool) (f : Ticket → Ticket)
    (hf : ∀ t, g (f t) = g t) :
    ((updateWhere db p f).1).map g = db.map g := by
  unfold updateWhere
  simp only [List.map_map]
  refine List.map_congr_left fun t _ => ?_
  by_cases hp : p t <;> simp [hp, hf]

theorem updateWhere_mem (db : TicketDB) (p : Ticket → Bool)
    (f : Ticket → Ticket) (t2 : Ticket)
    (h : t2 ∈ (updateWhere db p f).1) :
    ∃ t ∈ db, (p t = true ∧ t2 = f t) ∨ (p t = false ∧ t2 = t) := by
  unfold updateWhere at h
  simp only [List.mem_map] at h
  obtain ⟨t, ht, heq⟩ := h
  by_cases hp : p t
  · exact ⟨t, ht, Or.inl ⟨hp, by rw [← heq, if_pos hp]⟩⟩
  · exact ⟨t, ht, Or.inr ⟨by simpa using hp, by rw [← heq, if_neg hp]⟩⟩

theorem updateWhere_mem_update (db : TicketDB) (p : Ticket → Bool)
    (f : Ticket → Ticket) (t : Ticket) (ht : t ∈ db) (hp : p t = true) :
    f t ∈ (updateWhere db p f).1 := by
  unfold updateWhere
  simp only [List.mem_map]
  exact ⟨t, ht, by simp [hp]⟩

theorem branch_snd (c : Bool) (x : TicketDB) :
    (if c = true then (Response.notFound, x) else (Response.ok, x)).2 = x := by
  cases c <;> rfl

theorem submitTicket_ok_insert (u : IdentityClaim) (body : SubmitBody)
    (now newId : Nat) (db : TicketDB)
    (h : (submitTicket u body now newId db).1 = .ok) :
    (submitTicket u body now newId db).2 =
      db ++ [insertedTicket u body now newId] := by
  unfold submitTicket at h ⊢
  cases hg : requireRole ["normal_user", "technician", "planner", "admin"] (some u) with
  | unauthorized => rw [hg] at h; simp at h
  | forbidden => rw [hg] at h; simp at h
  | next =>
    rw [hg] at h
    by_cases h1 : falsy u.globalId = true
    · simp [h1] at h
    · by_cases h2 : (normalizeCategory body.category == some "Facility Service" &&
          (falsy body.building_no || falsy body.area_code ||
           falsy body.sub_area || falsy body.keyword)) = true
      · rw [Bool.not_eq_true] at h1
        simp [h1, h2] at h
      · rw [Bool.not_eq_true] at h1 h2
        simp [h1, h2]

theorem requireRole_next_of_jsOr (allowed : List String)
    (u : IdentityClaim) (r : String)
    (hr : jsOr u.role u.department = some r)
    (hmem : allowed.contains r = true) :
    requireRole allowed (some u) = .next := by
  simp only [requireRole, hr]
  simpa using hmem

theorem jsOr_role_admin (u : IdentityClaim) (h : u.role = some "admin") :
    jsOr u.role u.department = some "admin" := by
  unfold jsOr
  rw [h]
  simp [falsy]

/-- Claim C1 counterexample: a planner at Mumbai assigning a Pune
ticket through POST /ticket/assign succeeds and mutates the ticket,
instead of the NotFound outcome the claim requires for an out-of-scope
non-headquarters caller. -/
theorem ticketAssign_ignores_location_counterexample :
    samplePlannerMumbai.role = some "planner" ∧
    samplePlannerMumbai.location = some "Mumbai" ∧
    sampleTicketOpenPune.location = some "Pune" ∧
    (ticketAssign samplePlannerMumbai (some 1) (some "T99") 5
        [sampleTicketOpenPune]).1 = Response.ok ∧
    (ticketAssign samplePlannerMumbai (some 1) (some "T99") 5
        [sampleTicketOpenPune]).2 ≠ [sampleTicketOpenPune] := by
  refine ⟨rfl, rfl, rfl, rfl, by decide⟩

/-- Claim C1 (amended): on POST /planner/assign an out-of-scope assign
by a planner or admin caller outside the headquarters override updates
nothing — the location filter in the WHERE clause matches no row — but
the route still responds success rather than NotFound, because its
zero-rows test reads rowsAffected off the plain array db.js returns
and never fires; the parallel POST /ticket/assign endpoint applies no
location filter at all and mutates the ticket. -/
theorem plannerAssign_out_of_scope_no_update (u : IdentityClaim)
    (tid : Nat) (eid : String) (now : Nat) (db : TicketDB)
    (hrole : jsOr u.role u.department = some "planner" ∨
             jsOr u.role u.department = some "admin")
    (heid : eid ≠ "")
    (hnothq : ¬(u.role = some "admin" ∧ u.location = some "Pune"))
    (hscope : ∀ t ∈ db, t.id = tid → sqlEq t.location u.location = false) :
    plannerAssign u (some tid) (some eid) now db = (.ok, db) := by
  have hguard : requireRole ["planner", "admin"] (some u) = .next := by
    rcases hrole with h | h <;>
      exact requireRole_next_of_jsOr _ u _ h (by decide)
  have hfe : falsy (some eid) = false := by simp [falsy, heid]
  have hnm : ∀ t ∈ db, plannerScopePred u tid t = false := by
    intro t ht
    unfold plannerScopePred hqOverride
    by_cases h1 : u.role = some "admin"
    · by_cases h2 : u.location = some "Pune"
      · exact absurd ⟨h1, h2⟩ hnothq
      · by_cases hid : t.id = tid
        · simp [h1, h2, hid, hscope t ht hid]
        · simp [hid]
    · by_cases hid : t.id = tid
      · simp [h1, hid, hscope t ht hid]
      · simp [hid]
  have hupd := updateWhere_nomatch db (plannerScopePred u tid)
    (assignUpdate (some eid) u.globalId now) hnm
  unfold plannerAssign
  rw [hguard]
  simp [hfe, hupd, assignZeroRowsTest]

/-- Claim C1 amended witness: the Mumbai planner assigning the Pune
ticket through /planner/assign gets a success response with nothing
changed. -/
theorem plannerAssign_out_of_scope_no_update_witness :
    jsOr samplePlannerMumbai.role samplePlannerMumbai.department =
      some "planner" ∧
    ¬(samplePlannerMumbai.role = some "admin" ∧
      samplePlannerMumbai.location = some "Pune") ∧
    sqlEq sampleTicketOpenPune.location samplePlannerMumbai.location =
      false ∧
    plannerAssign samplePlannerMumbai (some 1) (some "T99") 5
      [sampleTicketOpenPune] = (.ok, [sampleTicketOpenPune]) :=
  ⟨by decide, by decide, by decide,
   plannerAssign_out_of_scope_no_update samplePlannerMumbai 1 "T99" 5
     [sampleTicketOpenPune] (Or.inl (by decide)) (by decide) (by decide)
     (by
       intro t ht hid
       rw [List.mem_singleton.mp ht]
       decide)⟩

/-- Claim C2 counterexample: an admin located at Mumbai, not the
headquarters, starts a Pune ticket through POST /technician/start and
succeeds with the ticket mutated, instead of the NotFound the claim
requires. -/
theorem admin_elsewhere_start_counterexample :
    sampleAdminMumbai.role = some "admin" ∧
    sampleAdminMumbai.location = some "Mumbai" ∧
    sampleTicketOpenPune.location = some "Pune" ∧
    (technicianStart sampleAdminMumbai (some 1) 5
        [sampleTicketOpenPune]).1 = Response.ok ∧
    (technicianStart sampleAdminMumbai (some 1) 5
        [sampleTicketOpenPune]).2 ≠ [sampleTicketOpenPune] := by
  refine ⟨rfl, rfl, rfl, rfl, by decide⟩

/-- Claim C2 (amended): on start and complete the location filter is
applied exactly to callers whose role claim is not admin, and it
affects only the persisted UPDATE, never the response: a non-admin
caller acting on a ticket outside their location leaves the table
unchanged yet still receives a success response, because the zero-rows
test inspects the destructured recordset and never fires, while an
admin at any location, headquarters or not, has the update applied to
tickets in any location. -/
theorem start_complete_location_filter_admin_exempt :
    (∀ u tid note now db,
        requireRole ["technician", "planner", "admin"] (some u) = .next →
        u.role ≠ some "admin" →
        (∀ t ∈ db, t.id = tid → sqlEq t.location u.location = false) →
        technicianStart u (some tid) now db = (.ok, db) ∧
        technicianComplete u (some tid) note now db = (.ok, db)) ∧
    (∀ u tid note now db t, u.role = some "admin" → t ∈ db → t.id = tid →
        startUpdate now t ∈ (technicianStart u (some tid) now db).2 ∧
        techCompleteUpdate note now t ∈
          (technicianComplete u (some tid) note now db).2) := by
  constructor
  · intro u tid note now db hguard hnonadmin hscope
    have hadm : (u.role == some "admin") = false := by
      simpa using hnonadmin
    have hnm : ∀ t ∈ db, techScopePred u tid t = false := by
      intro t ht
      unfold techScopePred
      rw [hadm]
      by_cases hid : t.id = tid
      · simp [hid, hscope t ht hid]
      · simp [hid]
    constructor
    · have hupd := updateWhere_nomatch db (techScopePred u tid)
        (startUpdate now) hnm
      unfold technicianStart
      rw [hguard]
      simp [hupd, techZeroRowsTest]
    · have hupd := updateWhere_nomatch db (techScopePred u tid)
        (techCompleteUpdate note now) hnm
      unfold technicianComplete
      rw [hguard]
      simp [hupd, techZeroRowsTest]
  · intro u tid note now db t hadmin ht htid
    have hguard := requireRole_next_of_jsOr
      ["technician", "planner", "admin"] u "admin"
      (jsOr_role_admin u hadmin) (by decide)
    have hp : techScopePred u tid t = true := by
      unfold techScopePred
      simp [hadmin, htid]
    have heqs : technicianStart u (some tid) now db =
        (.ok, (updateWhere db (techScopePred u tid) (startUpdate now)).1) := by
      unfold technicianStart
      rw [hguard]
      simp [techZeroRowsTest]
    have heqc : technicianComplete u (some tid) note now db =
        (.ok, (updateWhere db (techScopePred u tid)
          (techCompleteUpdate note now)).1) := by
      unfold technicianComplete
      rw [hguard]
      simp [techZeroRowsTest]
    constructor
    · rw [heqs]
      exact updateWhere_mem_update db (techScopePred u tid)
        (startUpdate now) t ht hp
    · rw [heqc]
      exact updateWhere_mem_update db (techScopePred u tid)
        (techCompleteUpdate note now) t ht hp

/-- Claim C2 amended witness: the Pune technician's start on the Delhi
ticket changes nothing yet responds success, while the Mumbai admin's
start update is applied to the Pune ticket. -/
theorem start_complete_location_filter_admin_exempt_witness :
    requireRole ["technician", "planner", "admin"] (some sampleTechPune) =
      .next ∧
    sampleTechPune.role ≠ some "admin" ∧
    technicianStart sampleTechPune (some 2) 5 [sampleTicketOpenDelhi] =
      (.ok, [sampleTicketOpenDelhi]) ∧
    startUpdate 5 sampleTicketOpenPune ∈
      (technicianStart sampleAdminMumbai (some 1) 5
        [sampleTicketOpenPune]).2 :=
  ⟨by decide, by decide,
   (start_complete_location_filter_admin_exempt.1 sampleTechPune 2 none 5
     [sampleTicketOpenDelhi] (by decide) (by decide)
     (by
       intro t ht hid
       rw [List.mem_singleton.mp ht]
       decide)).1,
   (start_complete_location_filter_admin_exempt.2 sampleAdminMumbai 1 none
     5 [sampleTicketOpenPune] sampleTicketOpenPune rfl (by decide)
     rfl).1⟩

/-- Claim C3 counterexample: start succeeds on a ticket whose status is
Completed, moving it backward to In Progress, and /ticket/complete
succeeds on a ticket whose status is Open, so neither the
Assigned-to-InProgress nor the InProgress-to-Completed precondition is
enforced. -/
theorem start_without_status_precondition_counterexample :
    sampleTicketCompletedPune.status = "Completed" ∧
    (technicianStart sampleTechPune (some 1) 5
        [sampleTicketCompletedPune]).1 = Response.ok ∧
    (technicianStart sampleTechPune (some 1) 5
        [sampleTicketCompletedPune]).2.map Ticket.status =
      ["In Progress"] ∧
    sampleTicketOpenPune.status = "Open" ∧
    (ticketComplete sampleTechPune (some 1) 5
        [sampleTicketOpenPune]).1 = Response.ok ∧
    (ticketComplete sampleTechPune (some 1) 5
        [sampleTicketOpenPune]).2.map Ticket.status = ["Completed"] := by
  refine ⟨rfl, rfl, rfl, rfl, rfl, rfl⟩

/-- Claim C3 (amended): start and complete are guarded only by the
ticket id and the caller's location scope, never by the current
status: every row matching the scope predicate, whatever its status,
is rewritten to In Progress respectively Completed, so backward moves
along the lifecycle order occur; and with the zero-rows test
unreachable the routes respond success even when nothing matched. -/
theorem start_complete_no_status_guard (u : IdentityClaim) (tid : Nat)
    (note : Option String) (now : Nat) (db : TicketDB)
    (hguard : requireRole ["technician", "planner", "admin"] (some u) =
        .next) :
    (technicianStart u (some tid) now db).1 = Response.ok ∧
    (technicianComplete u (some tid) note now db).1 = Response.ok ∧
    (∀ t ∈ db, techScopePred u tid t = true →
        startUpdate now t ∈ (technicianStart u (some tid) now db).2 ∧
        (startUpdate now t).status = "In Progress" ∧
        techCompleteUpdate note now t ∈
          (technicianComplete u (some tid) note now db).2 ∧
        (techCompleteUpdate note now t).status = "Completed") := by
  have heqs : technicianStart u (some tid) now db =
      (.ok, (updateWhere db (techScopePred u tid) (startUpdate now)).1) := by
    unfold technicianStart
    rw [hguard]
    simp [techZeroRowsTest]
  have heqc : technicianComplete u (some tid) note now db =
      (.ok, (updateWhere db (techScopePred u tid)
        (techCompleteUpdate note now)).1) := by
    unfold technicianComplete
    rw [hguard]
    simp [techZeroRowsTest]
  refine ⟨by rw [heqs], by rw [heqc], ?_⟩
  intro t ht hp
  refine ⟨?_, rfl, ?_, rfl⟩
  · rw [heqs]
    exact updateWhere_mem_update db (techScopePred u tid)
      (startUpdate now) t ht hp
  · rw [heqc]
    exact updateWhere_mem_update db (techScopePred u tid)
      (techCompleteUpdate note now) t ht hp

/-- Claim C3 amended witness: the Pune technician starting and
completing the already-completed Pune ticket succeeds, rewriting it to
In Progress respectively Completed again. -/
theorem start_complete_no_status_guard_witness :
    requireRole ["technician", "planner", "admin"]
        (some sampleTechPune) = .next ∧
    sampleTicketCompletedPune.status = "Completed" ∧
    techScopePred sampleTechPune 1 sampleTicketCompletedPune = true ∧
    startUpdate 5 sampleTicketCompletedPune ∈
      (technicianStart sampleTechPune (some 1) 5
        [sampleTicketCompletedPune]).2 ∧
    (technicianComplete sampleTechPune (some 1) (some "n") 5
        [sampleTicketCompletedPune]).1 = Response.ok :=
  have h := start_complete_no_status_guard sampleTechPune 1 (some "n")
    5 [sampleTicketCompletedPune] (by decide)
  ⟨by decide, rfl, by decide,
   (h.2.2 sampleTicketCompletedPune (by decide) (by decide)).1,
   h.2.1⟩

/-- Claim C4 counterexample: a ticket created, assigned and started
through the routes and then completed through POST /ticket/complete
ends with status Completed and completedAt still null, refuting both
the iff and the claim that every successful complete sets
completedAt. -/
theorem ticketComplete_leaves_completedAt_null_counterexample :
    (ticketComplete sampleTechPune (some 1) 4 reachableDb3).1 =
      Response.ok ∧
    reachableDb4.map Ticket.status = ["Completed"] ∧
    reachableDb4.map Ticket.completedAt = [none] := by
  refine ⟨rfl, rfl, rfl⟩

/-- Claim C4 (amended): the /technician/complete UPDATE sets
completedAt together with status Completed on every row it touches,
whatever the caller's allowed role, but POST /ticket/complete sets
status Completed while leaving every ticket's completedAt unchanged,
so completedAt non-null iff status Completed fails for tickets
completed through that route. -/
theorem completedAt_set_only_by_technician_complete (u : IdentityClaim)
    (tid : Nat) (note : Option String) (now : Nat) (db : TicketDB)
    (hguard : requireRole ["technician", "planner", "admin"] (some u) =
        .next) :
    (∀ t ∈ db, techScopePred u tid t = true →
        techCompleteUpdate note now t ∈
          (technicianComplete u (some tid) note now db).2 ∧
        (techCompleteUpdate note now t).status = "Completed" ∧
        (techCompleteUpdate note now t).completedAt = some now) ∧
    (∀ u2 tid2 now2 db2,
        ((ticketComplete u2 tid2 now2 db2).2).map Ticket.completedAt =
          db2.map Ticket.completedAt) := by
  have heqc : technicianComplete u (some tid) note now db =
      (.ok, (updateWhere db (techScopePred u tid)
        (techCompleteUpdate note now)).1) := by
    unfold technicianComplete
    rw [hguard]
    simp [techZeroRowsTest]
  constructor
  · intro t ht hp
    refine ⟨?_, rfl, rfl⟩
    rw [heqc]
    exact updateWhere_mem_update db (techScopePred u tid)
      (techCompleteUpdate note now) t ht hp
  · intro u2 tid2 now2 db2
    unfold ticketComplete
    cases hg : requireRole ["technician", "planner", "admin"] (some u2) with
    | unauthorized => rfl
    | forbidden => rfl
    | next =>
      cases tid2 with
      | none => rfl
      | some n =>
        simp only [completeMissingRowTest, Bool.false_eq_true, if_false]
        exact updateWhere_map_field Ticket.completedAt db2 (idPred n)
          (ticketCompleteUpdate now2) (fun t3 => rfl)

/-- Claim C4 amended witness: the Pune technician completing the
started Pune ticket through /technician/complete yields the row with
completedAt set, while /ticket/complete on the same table leaves every
completedAt untouched. -/
theorem completedAt_set_only_by_technician_complete_witness :
    requireRole ["technician", "planner", "admin"]
        (some sampleTechPune) = .next ∧
    sampleReachableTicket ∈ reachableDb3 ∧
    techScopePred sampleTechPune 1 sampleReachableTicket = true ∧
    techCompleteUpdate (some "n") 4 sampleReachableTicket ∈
      (technicianComplete sampleTechPune (some 1) (some "n") 4
        reachableDb3).2 ∧
    (techCompleteUpdate (some "n") 4 sampleReachableTicket).completedAt =
      some 4 ∧
    ((ticketComplete sampleTechPune (some 1) 4
        reachableDb3).2).map Ticket.completedAt =
      reachableDb3.map Ticket.completedAt :=
  have h := completedAt_set_only_by_technician_complete sampleTechPune
    1 (some "n") 4 reachableDb3 (by decide)
  ⟨by decide, by decide, by decide,
   (h.1 sampleReachableTicket (by decide) (by decide)).1,
   rfl,
   h.2 sampleTechPune (some 1) 4 reachableDb3⟩

/-- Claim C8 counterexample: an identity whose claim location is the
empty string has it coerced to NULL by the INSERT's location
expression user.location || null, so the stored ticket location
differs from the creating identity's location. -/
theorem empty_location_stored_as_null_counterexample :
    sampleUserEmptyLoc.location = some "" ∧
    (submitTicket sampleUserEmptyLoc sampleBodyOther 1 1 []).1 =
      Response.ok ∧
    ((submitTicket sampleUserEmptyLoc sampleBodyOther 1 1 []).2).map
        Ticket.location = [none] ∧
    (none : Option String) ≠ sampleUserEmptyLoc.location := by
  refine ⟨rfl, rfl, rfl, by decide⟩

/-- Claim C8 (amended): a created ticket's location is the creating
identity's location whenever that location is not the empty string,
which the INSERT coerces to NULL; and assign, start and complete in
every route variant leave every ticket's location unchanged. -/
theorem location_fixed_and_preserved :
    (∀ u body now newId db, u.location ≠ some "" →
        (submitTicket u body now newId db).1 = Response.ok →
        ((submitTicket u body now newId db).2).map Ticket.location =
          db.map Ticket.location ++ [u.location]) ∧
    (∀ u tid eid now db,
        ((ticketAssign u tid eid now db).2).map Ticket.location =
          db.map Ticket.location) ∧
    (∀ u tid eid now db,
        ((plannerAssign u tid eid now db).2).map Ticket.location =
          db.map Ticket.location) ∧
    (∀ u tid now db,
        ((technicianStart u tid now db).2).map Ticket.location =
          db.map Ticket.location) ∧
    (∀ u tid note now db,
        ((technicianComplete u tid note now db).2).map Ticket.location =
          db.map Ticket.location) ∧
    (∀ u tid now db,
        ((ticketComplete u tid now db).2).map Ticket.location =
          db.map Ticket.location) := by
  refine ⟨?_, ?_, ?_, ?_, ?_, ?_⟩
  · intro u body now newId db hne hok
    have hloc : orNull u.location = u.location := by
      cases hl : u.location with
      | none => rfl
      | some l =>
        have hl2 : l ≠ "" := by
          intro h
          exact hne (by rw [hl, h])
        simp [orNull, falsy, hl2]
    rw [submitTicket_ok_insert u body now newId db hok]
    simp [insertedTicket, hloc]
  · intro u tid eid now db
    unfold ticketAssign
    cases hg : requireRole ["planner", "admin"] (some u) with
    | unauthorized => rfl
    | forbidden => rfl
    | next =>
      cases tid with
      | none => rfl
      | some n =>
        by_cases hf : falsy eid = true
        · simp [hf]
        · rw [Bool.not_eq_true] at hf
          simp only [hf, Bool.false_eq_true, if_false, branch_snd]
          exact updateWhere_map_field Ticket.location db (idPred n)
            (assignUpdate eid u.globalId now) (fun t => rfl)
  · intro u tid eid now db
    unfold plannerAssign
    cases hg : requireRole ["planner", "admin"] (some u) with
    | unauthorized => rfl
    | forbidden => rfl
    | next =>
      cases tid with
      | none => rfl
      | some n =>
        by_cases hf : falsy eid = true
        · simp [hf]
        · rw [Bool.not_eq_true] at hf
          simp only [hf, Bool.false_eq_true, if_false, branch_snd]
          exact updateWhere_map_field Ticket.location db
            (plannerScopePred u n) (assignUpdate eid u.globalId now)
            (fun t => rfl)
  · intro u tid now db
    unfold technicianStart
    cases hg : requireRole ["technician", "planner", "admin"] (some u) with
    | unauthorized => rfl
    | forbidden => rfl
    | next =>
      cases tid with
      | none => rfl
      | some n =>
        simp only [branch_snd]
        exact updateWhere_map_field Ticket.location db
          (techScopePred u n) (startUpdate now) (fun t => rfl)
  · intro u tid note now db
    unfold technicianComplete
    cases hg : requireRole ["technician", "planner", "admin"] (some u) with
    | unauthorized => rfl
    | forbidden => rfl
    | next =>
      cases tid with
      | none => rfl
      | some n =>
        simp only [branch_snd]
        exact updateWhere_map_field Ticket.location db
          (techScopePred u n) (techCompleteUpdate note now) (fun t => rfl)
  · intro u tid now db
    unfold ticketComplete
    cases hg : requireRole ["technician", "planner", "admin"] (some u) with
    | unauthorized => rfl
    | forbidden => rfl
    | next =>
      cases tid with
      | none => rfl
      | some n =>
        simp only [completeMissingRowTest, Bool.false_eq_true, if_false]
        exact updateWhere_map_field Ticket.location db (idPred n)
          (ticketCompleteUpdate now) (fun t => rfl)

/-- Claim C8 witness: the Pune user's ticket is stored at Pune, and the
sample assign, start and complete calls leave the stored locations as
they were. -/
theorem location_fixed_and_preserved_witness :
    sampleUserPune.location ≠ some "" ∧
    (submitTicket sampleUserPune sampleBodyOther 1 1 []).1 =
      Response.ok ∧
    ((submitTicket sampleUserPune sampleBodyOther 1 1 []).2).map
        Ticket.location = [sampleUserPune.location] ∧
    ((technicianStart sampleAdminMumbai (some 1) 5
        [sampleTicketOpenPune]).2).map Ticket.location =
      [sampleTicketOpenPune.location] :=
  ⟨by decide, rfl,
   location_fixed_and_preserved.1 sampleUserPune sampleBodyOther 1 1 []
     (by decide) rfl,
   location_fixed_and_preserved.2.2.2.1 sampleAdminMumbai (some 1) 5
     [sampleTicketOpenPune]⟩

/-- Claim C9: the notification dispatcher attempts delivery to every
registered endpoint of the target whatever delivery failures occur, it
never surfaces an error, and with zero registered endpoints it makes no
attempt and completes without error. -/
theorem notify_attempts_all_and_never_errors
    (deliver : PushSubscription → Except String Unit)
    (registry : String → Option (List PushSubscription))
    (target : String) :
    (∃ log, sendNotificationToUser deliver registry target =
        Except.ok log ∧
      log.map Prod.fst = (registry target).getD []) ∧
    (registry target = none →
      sendNotificationToUser deliver registry target = Except.ok []) := by
  have hloop : ∀ subs : List PushSubscription, ∃ log,
      notifyLoop deliver subs = Except.ok log ∧
      log.map Prod.fst = subs := by
    intro subs
    induction subs with
    | nil => exact ⟨[], rfl, rfl⟩
    | cons s rest ih =>
      obtain ⟨log, hlog, hfst⟩ := ih
      have hs : ∃ r, attemptDelivery deliver s = Except.ok r := by
        cases hd : deliver s with
        | ok v =>
          refine ⟨none, ?_⟩
          unfold attemptDelivery
          rw [hd]
          rfl
        | error e =>
          refine ⟨some e, ?_⟩
          unfold attemptDelivery
          rw [hd]
          rfl
      obtain ⟨r, hr⟩ := hs
      refine ⟨(s, r) :: log, ?_, ?_⟩
      · unfold notifyLoop
        rw [hr, hlog]
        rfl
      · simp [hfst]
  constructor
  · obtain ⟨log, h1, h2⟩ := hloop ((registry target).getD [])
    exact ⟨log, h1, h2⟩
  · intro hnone
    unfold sendNotificationToUser
    rw [hnone]
    rfl

/-- Claim C9 witness: with one failing and one healthy endpoint both
are attempted and the call returns without error, and a target with no
registrations yields an error-free empty run. -/
theorem notify_attempts_all_and_never_errors_witness :
    (∃ log, sendNotificationToUser sampleDeliverFailFirst sampleRegistry
        "U1" = Except.ok log ∧
      log.map Prod.fst = (sampleRegistry "U1").getD []) ∧
    sampleEmptyRegistry "U9" = none ∧
    sendNotificationToUser sampleDeliverFailFirst sampleEmptyRegistry
      "U9" = Except.ok [] :=
  ⟨(notify_attempts_all_and_never_errors sampleDeliverFailFirst
      sampleRegistry "U1").1,
   rfl,
   (notify_attempts_all_and_never_errors sampleDeliverFailFirst
      sampleEmptyRegistry "U9").2 rfl⟩

/-- Claim C5: for every create request by an authenticated caller whose
normalized category is Facility Service, if any of buildingNo,
areaCode, subArea or keyword is absent or empty, the request is
rejected with a validation failure and no ticket row is persisted. -/
theorem facility_missing_fields_rejected (u : IdentityClaim)
    (body : SubmitBody) (now newId : Nat) (db : TicketDB)
    (hguard : requireRole ["normal_user", "technician", "planner", "admin"]
        (some u) = .next)
    (hauth : falsy u.globalId = false)
    (hcat : normalizeCategory body.category = some "Facility Service")
    (hmiss : falsy body.building_no = true ∨ falsy body.area_code = true ∨
             falsy body.sub_area = true ∨ falsy body.keyword = true) :
    submitTicket u body now newId db = (.validationError, db) := by
  unfold submitTicket
  rw [hguard]
  have hcond : (normalizeCategory body.category == some "Facility Service" &&
      (falsy body.building_no || falsy body.area_code ||
       falsy body.sub_area || falsy body.keyword)) = true := by
    rw [hcat]
    rcases hmiss with h | h | h | h <;> simp [h]
  simp [hauth, hcond]

/-- Claim C5 witness: a technician at Pune submitting a Facility ticket
without a keyword is rejected and the table stays empty. -/
theorem facility_missing_fields_rejected_witness :
    requireRole ["normal_user", "technician", "planner", "admin"]
        (some sampleTechPune) = .next ∧
    falsy sampleTechPune.globalId = false ∧
    normalizeCategory sampleFacilityBodyMissing.category =
      some "Facility Service" ∧
    falsy sampleFacilityBodyMissing.keyword = true ∧
    submitTicket sampleTechPune sampleFacilityBodyMissing 7 2 [] =
      (.validationError, []) :=
  ⟨by decide, by decide, by decide, by decide,
   facility_missing_fields_rejected sampleTechPune sampleFacilityBodyMissing
     7 2 [] (by decide) (by decide) (by decide)
     (Or.inr (Or.inr (Or.inr (by decide))))⟩

/-- Claim C6 counterexample: the unrecognized non-empty category value
Gibberish is stored as written, not coerced to Other, refuting the
claim that every unrecognized category value is stored as Other. -/
theorem unrecognized_category_counterexample :
    normalizeCategory (some "Gibberish") = some "Gibberish" ∧
    normalizeCategory (some "Gibberish") ≠ some "Other" := by
  exact ⟨rfl, by decide⟩

/-- Claim C6 (amended): an absent or empty category is stored as Other
and Facility is an accepted alias stored as Facility Service, but a
non-empty unrecognized category value is stored verbatim; the stored
category of a successfully inserted ticket is exactly the normalized
request category. -/
theorem category_normalization :
    (∀ c, falsy c = true → normalizeCategory c = some "Other") ∧
    normalizeCategory (some "Facility") = some "Facility Service" ∧
    (∀ s : String, s ≠ "" → s ≠ "Facility" → s ≠ "Facility Service" →
        normalizeCategory (some s) = some s) ∧
    (∀ u body now newId db,
        (submitTicket u body now newId db).1 = .ok →
        (submitTicket u body now newId db).2 =
          db ++ [insertedTicket u body now newId] ∧
        (insertedTicket u body now newId).category =
          normalizeCategory body.category) := by
  refine ⟨?_, rfl, ?_, ?_⟩
  · intro c hc
    cases c with
    | none => rfl
    | some s =>
      have hs : s = "" := by simpa [falsy] using hc
      subst hs
      rfl
  · intro s h1 h2 h3
    have hb1 : (some s == some "Facility") = false := by simp [h2]
    have hb2 : (some s == some "Facility Service") = false := by simp [h3]
    have hf : falsy (some s) = false := by simp [falsy, h1]
    simp [normalizeCategory, hb1, hb2, hf]
  · intro u body now newId db h
    exact ⟨submitTicket_ok_insert u body now newId db h, rfl⟩

/-- Claim C6 amended witness: the empty category becomes Other, the
alias maps to Facility Service, Breakdown is kept verbatim, and a
successful submit stores the normalized category. -/
theorem category_normalization_witness :
    normalizeCategory none = some "Other" ∧
    normalizeCategory (some "Breakdown") = some "Breakdown" ∧
    (submitTicket sampleTechPune sampleFacilityBody 7 2 []).2 =
      [] ++ [insertedTicket sampleTechPune sampleFacilityBody 7 2] :=
  ⟨category_normalization.1 none (by decide),
   category_normalization.2.2.1 "Breakdown" (by decide) (by decide) (by decide),
   (category_normalization.2.2.2 sampleTechPune sampleFacilityBody 7 2 []
     (by decide)).1⟩

/-- Claim C7 counterexample: the technician router and app.js token
selection prefers the stored cookie token over a presented
Authorization bearer header, so not every authenticated endpoint
verifies the header token when both are present. -/
theorem cookie_first_counterexample :
    bearerToken (some "Bearer H") = some "H" ∧
    selectTokenCookieFirst (some "Bearer H") (some "C") = some "C" ∧
    selectTokenCookieFirst (some "Bearer H") (some "C") ≠ some "H" := by
  refine ⟨by decide, rfl, by decide⟩

/-- Claim C7 (amended): the shared middleware used by the ticket,
planner, admin and master routes verifies the header token whenever the
header carries a truthy bearer token, but the local authenticateJWT of
the technician routes and of app.js verifies the cookie token whenever
a truthy cookie is present, regardless of the header. -/
theorem token_source_precedence :
    (∀ h c : Option String, ∀ t : String, bearerToken h = some t →
        t ≠ "" → selectTokenHeaderFirst h c = some t) ∧
    (∀ h c : Option String, falsy c = false →
        selectTokenCookieFirst h c = c) := by
  constructor
  · intro h c t hb ht
    unfold selectTokenHeaderFirst
    rw [hb]
    have : falsy (some t) = false := by simp [falsy, ht]
    simp [this]
  · intro h c hc
    unfold selectTokenCookieFirst
    simp [hc]

/-- Claim C7 amended witness: with both sources present the middleware
returns the header token and the technician-router variant returns the
cookie token. -/
theorem token_source_precedence_witness :
    bearerToken (some "Bearer H") = some "H" ∧
    selectTokenHeaderFirst (some "Bearer H") (some "C") = some "H" ∧
    falsy (some "C") = false ∧
    selectTokenCookieFirst (some "Bearer H") (some "C") = some "C" :=
  ⟨by decide,
   token_source_precedence.1 (some "Bearer H") (some "C") "H" (by decide)
     (by decide),
   by decide,
   token_source_precedence.2 (some "Bearer H") (some "C") (by decide)⟩

/-- Claim C10: the role guard derives the caller role as the claim role
field when truthy, otherwise the department field, so a claim without a
role whose department is in the allowed set is granted access. -/
theorem requireRole_department_fallback (allowed : List String)
    (u : IdentityClaim) (d : String)
    (hrole : falsy u.role = true) (hdep : u.department = some d)
    (hmem : allowed.contains d = true) :
    requireRole allowed (some u) = .next := by
  refine requireRole_next_of_jsOr allowed u d ?_ hmem
  unfold jsOr
  rw [hrole, hdep]
  simp

/-- Claim C10 witness: a claim with no role field and department
planner passes the planner/admin guard. -/
theorem requireRole_department_fallback_witness :
    falsy (none : Option String) = true ∧
    (["planner", "admin"].contains "planner") = true ∧
    requireRole ["planner", "admin"]
      (some { globalId := some "X", name := none, role := none,
              department := some "planner", location := none }) = .next :=
  ⟨by decide, by decide,
   requireRole_department_fallback ["planner", "admin"]
     { globalId := some "X", name := none, role := none,
       department := some "planner", location := none }
     "planner" (by decide) rfl (by decide)⟩

end WikaMaint
